import Mathlib

/-!
Verification of the `ppe_diag` helper utilities against their specification.

The development shallowly embeds the two relevant modules:

* `ppe_diag/scripts/utils/base_config.py` — the `BaseConfig` dataclass with
  its `__post_init__` validation, the reflection-driven CLI parser
  `from_cli`, and the `describe` report; and
* `ppe_diag/plotting/utils/plot_style.py` — `get_colormap`,
  `get_ensemble_colors` and `get_member_color`.

Python values are embedded as an inductive `Value`, declared field types as
`PyType`, dataclass fields as `FieldSpec` (with `default = none` playing the
role of `dataclasses.MISSING`), and fallible Python code as `Except`.
Filesystem side effects of `__post_init__` are modelled by explicit state
passing over a simple `FS` record.
-/

/-- A single-quote character, used to build the exact Python message strings. -/
def apos : String := String.singleton (Char.ofNat 39)

deriving instance DecidableEq for Except

/-- Python `str.replace` for a single-character pattern and replacement,
as used on field names: replace every occurrence. -/
def replaceChar (pat repl : Char) (s : String) : String :=
  String.mk (s.data.map (fun a => if a = pat then repl else a))

/-- Decimal digits accumulated left to right. -/
def parseDigits (acc : Nat) : List Char → Option Nat
  | [] => some acc
  | c :: cs =>
    if c.isDigit then parseDigits (acc * 10 + (c.toNat - 48)) cs else none

/-- Python `int(...)` on a string: an optional sign followed by at least one
decimal digit; anything else raises (`none`). -/
def pyInt (s : String) : Option Int :=
  match s.data with
  | [] => none
  | c :: cs =>
    if c = Char.ofNat 45 then
      match cs with
      | [] => none
      | _ => (parseDigits 0 cs).map (fun n => -(n : Int))
    else (parseDigits 0 (c :: cs)).map (fun n => (n : Int))

/-- Declared field types occurring in the dataclass reflection:
Python `int`, `bool`, `str`, `pathlib.Path`, and `typing.Optional[T]`. -/
inductive PyType
  | int
  | bool
  | str
  | path
  | optional (t : PyType)
deriving DecidableEq, Repr

/-- A filesystem path, as its list of components (`pathlib.PurePath.parts`). -/
abbrev PyPath := List String

/-- Embedded Python runtime values relevant to the configuration module. -/
inductive Value
  | vint (n : Int)
  | vbool (b : Bool)
  | vstr (s : String)
  | vpath (p : PyPath)
  | vnone
deriving DecidableEq, Repr

/-- One dataclass field as seen by `dataclasses.fields`: its name, declared
type, declared default (`none` embeds the `dataclasses.MISSING` sentinel,
`some v` a declared default value `v`), and `metadata["help"]`. -/
structure FieldSpec where
  name : String
  type : PyType
  default : Option Value
  help : String
deriving DecidableEq, Repr

/-- The value `arg_type` holds in `from_cli`: either a plain declared type or
the lambda-based bool coercion `lambda x: bool(int(x))` from line 74. -/
inductive Converter
  | ofType (t : PyType)
  | boolOfInt
deriving DecidableEq, Repr

/-- What `parser.add_argument` was given for one field: a zero-argument
toggle (`action="store_true"` or `action="store_false"`), or a value-taking
argument with its converter, `required` flag and parser-level default. -/
inductive ArgAction
  | storeTrue
  | storeFalse
  | storeValue (conv : Converter) (required : Bool) (default : Option Value)
deriving DecidableEq, Repr

/-- One registered CLI argument: flag name, help text, and action. -/
structure ArgSpec where
  name : String
  help : String
  action : ArgAction
deriving DecidableEq, Repr

/-- Flag name derivation from `from_cli`:
`arg_name = f"--{fld.name.replace('_', '-')}"`. -/
def argName (fieldName : String) : String :=
  "--" ++ replaceChar (Char.ofNat 95) (Char.ofNat 45) fieldName

/-- Lines 78–107 of `from_cli`, operating on the current value of the
`arg_type` variable: Optional-unwrapping (`get_origin`/`get_args`), the
boolean toggle branch, and the generic value-argument branch. -/
def buildArg (fld : FieldSpec) (required0 : Bool) (dflt : Value)
    (argType0 : Converter) : ArgSpec :=
  let unwrapped : Converter × Bool :=
    match argType0 with
    | Converter.ofType (PyType.optional t) => (Converter.ofType t, false)
    | c => (c, required0)
  let argType := unwrapped.1
  let required := unwrapped.2
  let cliType := argType
  if argType = Converter.ofType PyType.bool then
    { name := argName fld.name
      help := fld.help ++ (if required = false then " (default: False)" else "")
      action := if dflt ≠ Value.vbool true then ArgAction.storeTrue
                else ArgAction.storeFalse }
  else
    { name := argName fld.name
      help := fld.help
      action := ArgAction.storeValue cliType required
                  (if required then none else some dflt) }

/-- The per-field loop body of `from_cli` exactly as written in the source,
including the immediately-overwritten bool-coercion assignment of line 74
(`arg_type = fld.type if fld.type != bool else lambda x: bool(int(x))`)
followed by the overwrite `arg_type = fld.type` of line 77. -/
def processField_src (fld : FieldSpec) : ArgSpec :=
  let required := fld.default.isNone
  let dflt : Value := if required then Value.vnone else fld.default.getD Value.vnone
  let argType : Converter :=
    if fld.type ≠ PyType.bool then Converter.ofType fld.type else Converter.boolOfInt
  let argType : Converter := Converter.ofType fld.type
  buildArg fld required dflt argType

/-- The per-field loop body of `from_cli` with the dead assignment of line 74
removed: `arg_type` is simply the declared field type. -/
def processField (fld : FieldSpec) : ArgSpec :=
  let required := fld.default.isNone
  let dflt : Value := if required then Value.vnone else fld.default.getD Value.vnone
  buildArg fld required dflt (Converter.ofType fld.type)

/-- Whether the registered argument is a required one (`required=True` was
passed to `add_argument`); toggle actions are never required. -/
def specRequired (spec : ArgSpec) : Bool :=
  match spec.action with
  | ArgAction.storeValue _ r _ => r
  | _ => false

/-- The value converter handed to `add_argument` as `type=...`, if any;
toggle actions take no converter. -/
def cliConverter (spec : ArgSpec) : Option Converter :=
  match spec.action with
  | ArgAction.storeValue c _ _ => some c
  | _ => none

/-- Whether the registered argument consumes a value token from the command
line; toggle actions consume none. -/
def consumesValue (spec : ArgSpec) : Bool :=
  match spec.action with
  | ArgAction.storeValue _ _ _ => true
  | _ => false

/-- Whether a declared type is `Optional[...]`. -/
def isOptionalType : PyType → Bool
  | PyType.optional _ => true
  | _ => false

/-- One level of Optional-unwrapping of a declared type. -/
def unwrapOptional : PyType → PyType
  | PyType.optional t => t
  | t => t

/-- A `Path` built from a CLI string, split on the separator. -/
def pathOfString (s : String) : PyPath := s.splitOn "/"

/-- Applying a converter to a raw CLI token, as argparse applies `type=`:
`int(...)` parses an integer, `str`/`Path` accept any token, and the
bool-coercion lambda is `bool(int(x))`. A conversion the Python call would
raise on yields `none`. -/
def runConverter : Converter → String → Option Value
  | Converter.ofType PyType.int, s => (pyInt s).map Value.vint
  | Converter.ofType PyType.bool, s => (pyInt s).map (fun n => Value.vbool (n ≠ 0))
  | Converter.ofType PyType.str, s => some (Value.vstr s)
  | Converter.ofType PyType.path, s => some (Value.vpath (pathOfString s))
  | Converter.ofType (PyType.optional _), _ => none
  | Converter.boolOfInt, s => (pyInt s).map (fun n => Value.vbool (n ≠ 0))

/-- Parsing failures argparse reports as usage errors: a required argument
missing from the command line, a flag given without its value token, or a
value its converter rejects. -/
inductive ParseError
  | missingRequired (flag : String)
  | missingValue (flag : String)
  | badValue (flag : String) (raw : String)
deriving DecidableEq, Repr

/-- The token following the first occurrence of `flag` in the argument list. -/
def findValue : List String → String → Option String
  | [], _ => none
  | a :: rest, flag => if a = flag then rest.head? else findValue rest flag

/-- The value argparse assigns to one registered argument given the argument
list: toggles read presence of the flag (store_true defaults to `False`,
store_false to `True`); value arguments consume the following token and
convert it, fall back to their parser default when absent, and fail with a
usage error when required and absent. -/
def parseArg (argv : List String) (spec : ArgSpec) : Except ParseError Value :=
  match spec.action with
  | ArgAction.storeTrue => Except.ok (Value.vbool (decide (spec.name ∈ argv)))
  | ArgAction.storeFalse => Except.ok (Value.vbool (decide (spec.name ∉ argv)))
  | ArgAction.storeValue conv required dflt =>
    if spec.name ∈ argv then
      match findValue argv spec.name with
      | some raw =>
        match runConverter conv raw with
        | some v => Except.ok v
        | none => Except.error (ParseError.badValue spec.name raw)
      | none => Except.error (ParseError.missingValue spec.name)
    else if required then Except.error (ParseError.missingRequired spec.name)
    else Except.ok (dflt.getD Value.vnone)

/-- Left-to-right fallible evaluation of a Python comprehension or loop:
stops at the first raised error, as Python does. -/
def pyList {ε α β : Type} (f : α → Except ε β) : List α → Except ε (List β)
  | [] => Except.ok []
  | a :: as =>
    match f a with
    | Except.error e => Except.error e
    | Except.ok b =>
      match pyList f as with
      | Except.error e => Except.error e
      | Except.ok bs => Except.ok (b :: bs)

/-- `BaseConfig.from_cli` up to construction: register one argument per
declared field and parse the argument list, yielding the keyword assignments
`vars(args)` that the dataclass constructor is then called with. A parse
error is raised before any instance is constructed. -/
def from_cli (flds : List FieldSpec) (argv : List String) :
    Except ParseError (List (String × Value)) :=
  pyList (fun f => (parseArg argv (processField f)).map (fun v => (f.name, v))) flds

/-- `BaseConfig.from_cli` as literally written, with the dead bool-coercion
assignment of line 74 still in place. -/
def from_cli_src (flds : List FieldSpec) (argv : List String) :
    Except ParseError (List (String × Value)) :=
  pyList (fun f => (parseArg argv (processField_src f)).map (fun v => (f.name, v))) flds

/-- The value a non-toggle field receives when its flag is absent from the
command line (the empty argument list exercises exactly this fallback). -/
def omittedValue (fld : FieldSpec) : Except ParseError Value :=
  parseArg [] (processField fld)

/-- The filesystem state touched by `__post_init__`: the set of existing
files and the set of existing directories, each as a list of paths. -/
structure FS where
  files : List PyPath
  dirs : List PyPath
deriving DecidableEq, Repr

/-- `Path.exists()`: the path names an existing file or directory. -/
def FS.existsPath (fs : FS) (p : PyPath) : Bool :=
  fs.files.contains p || fs.dirs.contains p

/-- `Path.parent`: the path with its last component removed. -/
def parentPath (p : PyPath) : PyPath := p.dropLast

/-- Every ancestor of a path, the path itself included: its prefixes. -/
def pathPrefixes (p : PyPath) : List PyPath :=
  (List.range (p.length + 1)).map (fun k => p.take k)

/-- `Path.mkdir(parents=True, exist_ok=True)`: the directory and all its
ancestors exist afterwards. -/
def FS.mkdirParents (fs : FS) (p : PyPath) : FS :=
  ⟨fs.files, fs.dirs ++ pathPrefixes p⟩

/-- `Path.touch()`: the file exists afterwards. -/
def FS.touch (fs : FS) (p : PyPath) : FS :=
  ⟨fs.files ++ [p], fs.dirs⟩

/-- The validated base record: `BaseConfig`'s three declared fields. -/
structure BaseConfig where
  verbose : Int
  log_file : Option PyPath
  log_mode : String
deriving DecidableEq, Repr

/-- The validation errors `BaseConfig.__post_init__` raises, both plain
`ValueError`s (the spec's InvalidFieldValue): an invalid verbosity level or
an invalid log mode. -/
inductive ConfigError
  | invalidVerbose (v : Int)
  | invalidLogMode (m : String)
deriving DecidableEq, Repr

/-- `BaseConfig.__post_init__` as a state transformer over the filesystem:
first the verbosity check, then the log-file creation side effect (create
parent directories and touch the file when a log file is configured and the
path does not exist), then the log-mode check. The filesystem component of
the result is the state left behind whether or not an error is raised. -/
def post_init (verbose : Int) (log_file : Option PyPath) (log_mode : String)
    (fs : FS) : Except ConfigError BaseConfig × FS :=
  if verbose ∉ ([0, 1, 2, 3] : List Int) then
    (Except.error (ConfigError.invalidVerbose verbose), fs)
  else
    let fs1 :=
      match log_file with
      | none => fs
      | some p =>
        if fs.existsPath p then fs else (fs.mkdirParents (parentPath p)).touch p
    if log_mode ∉ (["w", "a"] : List String) then
      (Except.error (ConfigError.invalidLogMode log_mode), fs1)
    else
      (Except.ok ⟨verbose, log_file, log_mode⟩, fs1)

/-- `str.ljust`: pad with spaces on the right up to the given width. -/
def ljust (s : String) (width : Nat) : String :=
  s ++ String.mk (List.replicate (width - s.length) ' ')

/-- The text `str(...)` produces for a declared type annotation. -/
def typeName : PyType → String
  | PyType.int => "<class " ++ apos ++ "int" ++ apos ++ ">"
  | PyType.bool => "<class " ++ apos ++ "bool" ++ apos ++ ">"
  | PyType.str => "<class " ++ apos ++ "str" ++ apos ++ ">"
  | PyType.path => "<class " ++ apos ++ "pathlib.Path" ++ apos ++ ">"
  | PyType.optional t => "typing.Optional[" ++ typeName t ++ "]"

/-- Python `repr` of an embedded value. -/
def pyRepr : Value → String
  | Value.vint n => toString n
  | Value.vbool b => if b then "True" else "False"
  | Value.vstr s => apos ++ s ++ apos
  | Value.vpath p => "PosixPath(" ++ apos ++ String.intercalate "/" p ++ apos ++ ")"
  | Value.vnone => "None"

/-- One body line of `describe`:
`f"  {name.ljust(25)}: {str(type).ljust(25)} = {value!r}  {help}"`. -/
def describeLine (fv : FieldSpec × Value) : String :=
  "  " ++ ljust fv.1.name 25 ++ ": " ++ ljust (typeName fv.1.type) 25
    ++ " = " ++ pyRepr fv.2 ++ "  " ++ fv.1.help

/-- The `lines` list `describe` builds for an instance (given as its fields
paired with their current values, in declaration order): one header line
naming the class, then one line per field. With `return_string=True` the
method returns these lines joined by newlines. -/
def describe (className : String) (inst : List (FieldSpec × Value)) : List String :=
  ("Instance of dataclass " ++ apos ++ className ++ apos
      ++ " has the following values:")
    :: inst.map describeLine

/-- A colormap object, abstractly: a tag distinguishing it. -/
structure Colormap where
  tag : String
deriving DecidableEq, Repr

/-- The `cmocean.cm.tarn` colormap, as an abstract token. -/
def tarn : Colormap := ⟨"tarn"⟩

/-- The external `cmocean.tools.crop_by_percent`, abstractly: it yields a
colormap determined by its colormap, percentage and side arguments. -/
def crop_by_percent (cm : Colormap) (percent : Nat) (which : String) : Colormap :=
  ⟨cm.tag ++ "/cropped/" ++ toString percent ++ "/" ++ which⟩

/-- First-match association lookup, embedding Python `dict` key lookup for
the dictionaries in play (their keys are distinct). -/
def lookupStr {β : Type} : List (String × β) → String → Option β
  | [], _ => none
  | (k, v) :: rest, key => if k = key then some v else lookupStr rest key

/-- The explicit style mapping built inside `get_colormap`:
`{'heatmap': cmocean.tools.crop_by_percent(cmocean.cm.tarn, 30, which='both', N=None)}`. -/
def styleMapping : List (String × Colormap) :=
  [("heatmap", crop_by_percent tarn 30 "both")]

/-- The exact `ValueError` message `get_colormap` raises for an unknown name. -/
def noColormapMsg (variable_name : String) : String :=
  "No colormap defined for variable " ++ apos ++ variable_name ++ apos
    ++ ". Please define a mapping in mapping)."

/-- `get_colormap`: the explicit mapping first, then the `cmocean.cm`
registry (passed in as an association list, since it belongs to the external
library), else a `ValueError` naming the offending key. -/
def get_colormap (registry : List (String × Colormap)) (variable_name : String) :
    Except String Colormap :=
  match lookupStr styleMapping variable_name with
  | some c => Except.ok c
  | none =>
    match lookupStr registry variable_name with
    | some c => Except.ok c
    | none => Except.error (noColormapMsg variable_name)

/-- Python float division of two non-negative integers, over `ℚ`: raises
`ZeroDivisionError` on a zero denominator. -/
def pydiv (a b : Nat) : Except String ℚ :=
  if b = 0 then Except.error "ZeroDivisionError: division by zero"
  else Except.ok ((a : ℚ) / (b : ℚ))

/-- `get_ensemble_colors`: `[cmap(i / n_members) for i in range(n_members)]`,
with the colormap call abstracted as a function out of `ℚ`. -/
def get_ensemble_colors {γ : Type} (n_members : Nat) (cmap : ℚ → γ) :
    Except String (List γ) :=
  pyList (fun i => (pydiv i n_members).map cmap) (List.range n_members)

/-- `get_member_color`: build the ensemble colors and index them; a
non-negative index at or past the end raises `IndexError`. -/
def get_member_color {γ : Type} (member_idx n_members : Nat) (cmap : ℚ → γ) :
    Except String γ :=
  match get_ensemble_colors n_members cmap with
  | Except.error e => Except.error e
  | Except.ok colors =>
    match colors.get? member_idx with
    | some c => Except.ok c
    | none => Except.error "IndexError: list index out of range"

/-- The two-field record of spec property 3: a required `x` (no default) and
an optional `y` defaulting to 5. -/
def xyFields : List FieldSpec :=
  [⟨"x", PyType.int, none, ""⟩, ⟨"y", PyType.int, some (Value.vint 5), ""⟩]

/-- Claim C4: for a record with one required field `x` and one field `y`
defaulting to 5, `from_cli` on an empty argument list fails with a
missing-required-field usage error before any instance is constructed, and
on `["--x", "3"]` yields the assignments `x = 3`, `y = 5`. -/
theorem C4_required_field_cli :
    from_cli xyFields [] = Except.error (ParseError.missingRequired "--x") ∧
    from_cli xyFields ["--x", "3"]
      = Except.ok [("x", Value.vint 3), ("y", Value.vint 5)] := by
  exact ⟨by decide, by decide⟩

/-- Claim C7: the lambda-based bool-coercion converter of line 74 is dead
code — `from_cli` as written (`from_cli_src`) is extensionally equal to
`from_cli` with that assignment removed, for every record type and every
argument list. -/
theorem C7_dead_bool_coercion (flds : List FieldSpec) (argv : List String) :
    from_cli_src flds argv = from_cli flds argv := rfl

/-- Claim C2: constructing `BaseConfig` with a verbosity outside {0,1,2,3}
raises `InvalidFieldValue`; with a log mode outside {"w","a"} construction
raises `InvalidFieldValue`; with a valid verbosity, a valid log mode and no
log file, construction succeeds. -/
theorem C2_base_validation (v : Int) (lf : Option PyPath) (m : String) (fs : FS) :
    (v ∉ ([0, 1, 2, 3] : List Int) →
        (post_init v lf m fs).1 = Except.error (ConfigError.invalidVerbose v)) ∧
    (m ∉ (["w", "a"] : List String) →
        ∃ e, (post_init v lf m fs).1 = Except.error e) ∧
    (v ∈ ([0, 1, 2, 3] : List Int) → m ∈ (["w", "a"] : List String) →
        (post_init v none m fs).1 = Except.ok ⟨v, none, m⟩) := by
  refine ⟨fun hv => by simp [post_init, hv], fun hm => ?_, fun hv hm => ?_⟩
  · by_cases hv : v ∈ ([0, 1, 2, 3] : List Int)
    · exact ⟨ConfigError.invalidLogMode m, by simp [post_init, hv, hm]⟩
    · exact ⟨ConfigError.invalidVerbose v, by simp [post_init, hv]⟩
  · simp [post_init, hv, hm]

/-- Concrete instantiation of `C2_base_validation`: verbosity 7 is rejected,
log mode "x" is rejected, and `(verbose := 1, log_mode := "a")` is accepted. -/
theorem C2_base_validation_witness :
    (post_init 7 none "w" ⟨[], []⟩).1 = Except.error (ConfigError.invalidVerbose 7) ∧
    (∃ e, (post_init 1 none "x" ⟨[], []⟩).1 = Except.error e) ∧
    (post_init 1 none "a" ⟨[], []⟩).1 = Except.ok ⟨1, none, "a"⟩ := by
  exact ⟨(C2_base_validation 7 none "w" ⟨[], []⟩).1 (by decide),
         (C2_base_validation 1 none "x" ⟨[], []⟩).2.1 (by decide),
         (C2_base_validation 1 none "a" ⟨[], []⟩).2.2 (by decide) (by decide)⟩

/-- Counterexample to claim C5: the code rejects the log modes "write" and
"append" — `__post_init__` raises `InvalidFieldValue` on both, with every
other field valid. -/
theorem C5_counterexample :
    (post_init 0 none "write" ⟨[], []⟩).1
      = Except.error (ConfigError.invalidLogMode "write") ∧
    (post_init 0 none "append" ⟨[], []⟩).1
      = Except.error (ConfigError.invalidLogMode "append") := by
  exact ⟨rfl, rfl⟩

/-- Claim C5 as amended: the base record's log mode field accepts exactly
the literal values "w" (write) and "a" (append); with otherwise valid
fields these succeed and every other mode raises `InvalidFieldValue`. -/
theorem C5_log_mode_amended (fs : FS) :
    (post_init 0 none "w" fs).1 = Except.ok ⟨0, none, "w"⟩ ∧
    (post_init 0 none "a" fs).1 = Except.ok ⟨0, none, "a"⟩ ∧
    ∀ m, m ∉ (["w", "a"] : List String) →
      (post_init 0 none m fs).1 = Except.error (ConfigError.invalidLogMode m) := by
  refine ⟨by simp [post_init], by simp [post_init], fun m hm => by simp [post_init, hm]⟩

/-- Concrete instantiation of `C5_log_mode_amended` on the empty filesystem. -/
theorem C5_log_mode_amended_witness :
    (post_init 0 none "w" ⟨[], []⟩).1 = Except.ok ⟨0, none, "w"⟩ ∧
    (post_init 0 none "wr" ⟨[], []⟩).1
      = Except.error (ConfigError.invalidLogMode "wr") := by
  exact ⟨(C5_log_mode_amended ⟨[], []⟩).1,
         (C5_log_mode_amended ⟨[], []⟩).2.2 "wr" (by decide)⟩

/-- Claim C9: construction is not atomic in its filesystem effect. An
invalid verbosity aborts before any filesystem access, leaving the
filesystem untouched; but with a valid verbosity, a configured log file
whose path does not exist, and an invalid log mode, construction raises
`InvalidFieldValue` and still leaves the log file and its parent
directories created. -/
theorem C9_nonatomic_side_effect (v : Int) (p : PyPath) (m : String) (fs : FS) :
    (v ∉ ([0, 1, 2, 3] : List Int) →
        post_init v (some p) m fs
          = (Except.error (ConfigError.invalidVerbose v), fs)) ∧
    (v ∈ ([0, 1, 2, 3] : List Int) → fs.existsPath p = false →
        m ∉ (["w", "a"] : List String) →
        (post_init v (some p) m fs).1
            = Except.error (ConfigError.invalidLogMode m) ∧
        p ∈ (post_init v (some p) m fs).2.files ∧
        ∀ q ∈ pathPrefixes (parentPath p),
          q ∈ (post_init v (some p) m fs).2.dirs) := by
  refine ⟨fun hv => by simp [post_init, hv], fun hv hp hm => ?_⟩
  refine ⟨by simp [post_init, hv, hp, hm], ?_, ?_⟩
  · simp [post_init, hv, hp, hm, FS.touch, FS.mkdirParents]
  · intro q hq
    simp [post_init, hv, hp, hm, FS.touch, FS.mkdirParents]
    exact Or.inr hq

/-- Concrete instantiation of `C9_nonatomic_side_effect`: verbosity 9 leaves
an empty filesystem empty; log mode "x" with log file `logs/run.log` on an
empty filesystem errors yet creates the file and the `logs` directory. -/
theorem C9_nonatomic_side_effect_witness :
    post_init 9 (some ["logs", "run.log"]) "w" ⟨[], []⟩
      = (Except.error (ConfigError.invalidVerbose 9), ⟨[], []⟩) ∧
    (post_init 0 (some ["logs", "run.log"]) "x" ⟨[], []⟩).1
      = Except.error (ConfigError.invalidLogMode "x") ∧
    ["logs", "run.log"] ∈ (post_init 0 (some ["logs", "run.log"]) "x" ⟨[], []⟩).2.files ∧
    ["logs"] ∈ (post_init 0 (some ["logs", "run.log"]) "x" ⟨[], []⟩).2.dirs := by
  refine ⟨(C9_nonatomic_side_effect 9 ["logs", "run.log"] "w" ⟨[], []⟩).1 (by decide),
          ((C9_nonatomic_side_effect 0 ["logs", "run.log"] "x" ⟨[], []⟩).2
              (by decide) (by decide) (by decide)).1,
          ((C9_nonatomic_side_effect 0 ["logs", "run.log"] "x" ⟨[], []⟩).2
              (by decide) (by decide) (by decide)).2.1,
          ((C9_nonatomic_side_effect 0 ["logs", "run.log"] "x" ⟨[], []⟩).2
              (by decide) (by decide) (by decide)).2.2 ["logs"] (by decide)⟩

/-- Counterexample to claim C1: a boolean field whose declared default is
the missing sentinel and whose type is not Optional is nonetheless NOT a
required CLI argument (it becomes a toggle, and omitting the flag yields
`False`); moreover an `Optional[bool]` field with no declared default falls
back to `False`, not `None`, when its flag is omitted. -/
theorem C1_counterexample :
    (⟨"flag", PyType.bool, none, ""⟩ : FieldSpec).default = none ∧
    isOptionalType (⟨"flag", PyType.bool, none, ""⟩ : FieldSpec).type = false ∧
    specRequired (processField ⟨"flag", PyType.bool, none, ""⟩) = false ∧
    omittedValue ⟨"flag", PyType.bool, none, ""⟩ = Except.ok (Value.vbool false) ∧
    (⟨"ob", PyType.optional PyType.bool, none, ""⟩ : FieldSpec).default = none ∧
    omittedValue ⟨"ob", PyType.optional PyType.bool, none, ""⟩
      = Except.ok (Value.vbool false) := by decide

/-- Claim C1 as amended: in `from_cli`, a field becomes a required CLI
argument if and only if its declared default is the missing sentinel, its
declared type is not `Optional[...]`, and its declared type is not `bool`
(boolean and Optional-of-boolean fields become toggles, never required).
An `Optional[t]` field is never required, its value converter is the
unwrapped `t` (none for `Optional[bool]`, which becomes a toggle), and when
it has no declared default and `t` is not `bool` it falls back to `None`
when the flag is omitted. Every other non-required non-boolean field falls
back to its declared default when its flag is absent. -/
theorem C1_requiredness_amended (fld : FieldSpec) :
    (specRequired (processField fld) = true ↔
        (fld.default = none ∧ isOptionalType fld.type = false ∧
          fld.type ≠ PyType.bool)) ∧
    (∀ t, fld.type = PyType.optional t →
        specRequired (processField fld) = false ∧
        cliConverter (processField fld)
          = (if t = PyType.bool then none else some (Converter.ofType t)) ∧
        (fld.default = none → t ≠ PyType.bool →
            omittedValue fld = Except.ok Value.vnone)) ∧
    (specRequired (processField fld) = false →
        unwrapOptional fld.type ≠ PyType.bool →
        omittedValue fld = Except.ok (fld.default.getD Value.vnone)) := by
  obtain ⟨nm, ty, df, hp⟩ := fld
  refine ⟨?_, ?_, ?_⟩
  · cases ty with
    | int => cases df <;> simp [processField, buildArg, specRequired, isOptionalType]
    | str => cases df <;> simp [processField, buildArg, specRequired, isOptionalType]
    | path => cases df <;> simp [processField, buildArg, specRequired, isOptionalType]
    | bool =>
      rcases df with _ | v
      · simp [processField, buildArg, specRequired, isOptionalType]
      · by_cases hv : v = Value.vbool true <;>
          simp [processField, buildArg, specRequired, isOptionalType, hv]
    | optional t =>
      rcases df with _ | v
      · by_cases hbt : t = PyType.bool <;>
          simp [processField, buildArg, specRequired, isOptionalType, hbt]
      · by_cases hbt : t = PyType.bool
        · by_cases hv : v = Value.vbool true <;>
            simp [processField, buildArg, specRequired, isOptionalType, hbt, hv]
        · simp [processField, buildArg, specRequired, isOptionalType, hbt]
  · intro t ht
    cases ht
    by_cases hb : t = PyType.bool
    · subst hb
      rcases df with _ | v
      · simp [processField, buildArg, specRequired, cliConverter, omittedValue,
              parseArg]
      · by_cases hv : v = Value.vbool true <;>
          simp [processField, buildArg, specRequired, cliConverter, omittedValue,
                parseArg, hv]
    · rcases df with _ | v <;>
        simp [processField, buildArg, specRequired, cliConverter, omittedValue,
              parseArg, hb]
  · intro hr hb
    cases ty with
    | int =>
      rcases df with _ | v <;>
        simp_all [processField, buildArg, specRequired, unwrapOptional,
                  omittedValue, parseArg]
    | str =>
      rcases df with _ | v <;>
        simp_all [processField, buildArg, specRequired, unwrapOptional,
                  omittedValue, parseArg]
    | path =>
      rcases df with _ | v <;>
        simp_all [processField, buildArg, specRequired, unwrapOptional,
                  omittedValue, parseArg]
    | bool => simp [unwrapOptional] at hb
    | optional t =>
      have hbt : t ≠ PyType.bool := by simpa [unwrapOptional] using hb
      rcases df with _ | v <;>
        simp_all [processField, buildArg, specRequired, unwrapOptional,
                  omittedValue, parseArg, hbt]

/-- Concrete instantiation of `C1_requiredness_amended`: a defaultless `int`
field is required, a defaultless `Optional[int]` field falls back to `None`,
and an `int` field with default 5 falls back to 5. -/
theorem C1_requiredness_amended_witness :
    specRequired (processField ⟨"x", PyType.int, none, ""⟩) = true ∧
    omittedValue ⟨"opt", PyType.optional PyType.int, none, ""⟩
      = Except.ok Value.vnone ∧
    omittedValue ⟨"y", PyType.int, some (Value.vint 5), ""⟩
      = Except.ok (Value.vint 5) := by
  refine ⟨((C1_requiredness_amended ⟨"x", PyType.int, none, ""⟩).1).mpr
            (by decide), ?_, ?_⟩
  · exact ((C1_requiredness_amended
        ⟨"opt", PyType.optional PyType.int, none, ""⟩).2.1 PyType.int
          rfl).2.2 rfl (by decide)
  · exact (C1_requiredness_amended
        ⟨"y", PyType.int, some (Value.vint 5), ""⟩).2.2 (by decide) (by decide)

/-- Claim C3: a boolean field with default `False` becomes a `store_true`
toggle — flag present yields `True`, flag absent yields `False`; a boolean
field with default `True` becomes the inverse `store_false` toggle — flag
present yields `False`, absent yields `True` — so supplying the flag always
flips the field from its default; and boolean flags never consume a value
token. -/
theorem C3_bool_toggle (nm hp : String) (argv : List String) :
    (argName nm ∈ argv →
        parseArg argv (processField ⟨nm, PyType.bool, some (Value.vbool false), hp⟩)
          = Except.ok (Value.vbool true)) ∧
    (argName nm ∉ argv →
        parseArg argv (processField ⟨nm, PyType.bool, some (Value.vbool false), hp⟩)
          = Except.ok (Value.vbool false)) ∧
    (argName nm ∈ argv →
        parseArg argv (processField ⟨nm, PyType.bool, some (Value.vbool true), hp⟩)
          = Except.ok (Value.vbool false)) ∧
    (argName nm ∉ argv →
        parseArg argv (processField ⟨nm, PyType.bool, some (Value.vbool true), hp⟩)
          = Except.ok (Value.vbool true)) ∧
    consumesValue (processField ⟨nm, PyType.bool, some (Value.vbool false), hp⟩)
      = false ∧
    consumesValue (processField ⟨nm, PyType.bool, some (Value.vbool true), hp⟩)
      = false := by
  refine ⟨fun h => ?_, fun h => ?_, fun h => ?_, fun h => ?_, ?_, ?_⟩
  · simp [processField, buildArg, parseArg, h]
  · simp [processField, buildArg, parseArg, h]
  · simp [processField, buildArg, parseArg, h]
  · simp [processField, buildArg, parseArg, h]
  · simp [processField, buildArg, consumesValue]
  · simp [processField, buildArg, consumesValue]

/-- Concrete instantiation of `C3_bool_toggle` at a field named `flag`. -/
theorem C3_bool_toggle_witness :
    parseArg ["--flag"]
        (processField ⟨"flag", PyType.bool, some (Value.vbool false), ""⟩)
      = Except.ok (Value.vbool true) ∧
    parseArg []
        (processField ⟨"flag", PyType.bool, some (Value.vbool false), ""⟩)
      = Except.ok (Value.vbool false) ∧
    parseArg ["--flag"]
        (processField ⟨"flag", PyType.bool, some (Value.vbool true), ""⟩)
      = Except.ok (Value.vbool false) := by
  refine ⟨(C3_bool_toggle "flag" "" ["--flag"]).1 (by decide),
          (C3_bool_toggle "flag" "" []).2.1 (by decide),
          (C3_bool_toggle "flag" "" ["--flag"]).2.2.1 (by decide)⟩

/-- Claim C6: for every instance, the `lines` report of
`describe(return_string=True)` has one header line plus exactly one line per
declared field, in declaration order, and each field line contains the
`repr` of that field's current value. -/
theorem C6_describe_shape (className : String) (inst : List (FieldSpec × Value)) :
    (describe className inst).length = inst.length + 1 ∧
    ∀ i, ∀ h : i < inst.length,
      (describe className inst).get? (i + 1)
          = some (describeLine (inst.get ⟨i, h⟩)) ∧
      ∃ pre suf,
        describeLine (inst.get ⟨i, h⟩)
          = pre ++ pyRepr (inst.get ⟨i, h⟩).2 ++ suf := by
  refine ⟨by simp [describe], fun i h => ⟨?_, ?_⟩⟩
  · show (inst.map describeLine).get? i = some (describeLine (inst.get ⟨i, h⟩))
    rw [List.get?_map, List.get?_eq_get h]
    rfl
  · refine ⟨"  " ++ ljust (inst.get ⟨i, h⟩).1.name 25 ++ ": "
        ++ ljust (typeName (inst.get ⟨i, h⟩).1.type) 25 ++ " = ",
      "  " ++ (inst.get ⟨i, h⟩).1.help, ?_⟩
    simp [describeLine, String.append_assoc]

/-- Concrete instantiation of `C6_describe_shape` on a two-field instance. -/
theorem C6_describe_shape_witness :
    (describe "BaseConfig"
        [(⟨"verbose", PyType.int, some (Value.vint 0), "verbosity"⟩, Value.vint 0),
         (⟨"log_mode", PyType.str, some (Value.vstr "w"), "mode"⟩,
            Value.vstr "w")]).length = 3 ∧
    ∃ pre suf,
      describeLine
          (⟨"log_mode", PyType.str, some (Value.vstr "w"), "mode"⟩, Value.vstr "w")
        = pre ++ pyRepr (Value.vstr "w") ++ suf := by
  exact ⟨(C6_describe_shape "BaseConfig"
            [(⟨"verbose", PyType.int, some (Value.vint 0), "verbosity"⟩, Value.vint 0),
             (⟨"log_mode", PyType.str, some (Value.vstr "w"), "mode"⟩,
                Value.vstr "w")]).1,
         ((C6_describe_shape "BaseConfig"
            [(⟨"verbose", PyType.int, some (Value.vint 0), "verbosity"⟩, Value.vint 0),
             (⟨"log_mode", PyType.str, some (Value.vstr "w"), "mode"⟩,
                Value.vstr "w")]).2 1 (by decide)).2⟩

/-- Claim C8: `get_colormap` returns the explicitly mapped colormap for every
key of the style mapping (the mapping taking precedence over the registry),
returns the registry entry for every other name the registry holds, and for
every remaining name raises a `ValueError` whose message names the offending
key, with no fallback value. -/
theorem C8_get_colormap (registry : List (String × Colormap)) (nm : String) :
    (∀ c, lookupStr styleMapping nm = some c →
        get_colormap registry nm = Except.ok c) ∧
    (lookupStr styleMapping nm = none →
        ∀ c, lookupStr registry nm = some c →
          get_colormap registry nm = Except.ok c) ∧
    (lookupStr styleMapping nm = none → lookupStr registry nm = none →
        get_colormap registry nm = Except.error (noColormapMsg nm)) := by
  refine ⟨fun c hc => ?_, fun hm c hc => ?_, fun hm hr => ?_⟩
  · simp [get_colormap, hc]
  · simp [get_colormap, hm, hc]
  · simp [get_colormap, hm, hr]

/-- Concrete instantiation of `C8_get_colormap` against a one-entry
registry: the explicit mapping resolves "heatmap", the registry resolves
"thermal", and "missing" raises the message naming it. -/
theorem C8_get_colormap_witness :
    get_colormap [("thermal", ⟨"thermal"⟩)] "heatmap"
      = Except.ok (crop_by_percent tarn 30 "both") ∧
    get_colormap [("thermal", ⟨"thermal"⟩)] "thermal" = Except.ok ⟨"thermal"⟩ ∧
    get_colormap [("thermal", ⟨"thermal"⟩)] "missing"
      = Except.error (noColormapMsg "missing") := by
  exact ⟨(C8_get_colormap [("thermal", ⟨"thermal"⟩)] "heatmap").1 _ rfl,
         (C8_get_colormap [("thermal", ⟨"thermal"⟩)] "thermal").2.1 rfl _ rfl,
         (C8_get_colormap [("thermal", ⟨"thermal"⟩)] "missing").2.2 rfl rfl⟩

/-- Auxiliary: a fallible comprehension all of whose element computations
succeed yields a list of results of the same length. -/
theorem pyList_ok {ε α β : Type} (f : α → Except ε β) :
    ∀ l : List α, (∀ a ∈ l, ∃ b, f a = Except.ok b) →
      ∃ bs, pyList f l = Except.ok bs ∧ bs.length = l.length := by
  intro l
  induction l with
  | nil => exact fun _ => ⟨[], rfl, rfl⟩
  | cons a as ih =>
    intro h
    obtain ⟨b, hb⟩ := h a (List.mem_cons_self a as)
    obtain ⟨bs, hbs, hlen⟩ := ih fun x hx => h x (List.mem_cons_of_mem a hx)
    exact ⟨b :: bs, by simp [pyList, hb, hbs], by simp [hlen]⟩

/-- Claim C10: `get_ensemble_colors n cmap` yields exactly `n` colors (the
empty list for `n = 0`, the division never being evaluated there), for every
index `i < n` `get_member_color i n cmap` returns exactly the `i`-th entry
of that list, and for `i ≥ n` it raises `IndexError`. -/
theorem C10_ensemble_colors {γ : Type} (n i : Nat) (cmap : ℚ → γ) :
    get_ensemble_colors 0 cmap = Except.ok ([] : List γ) ∧
    (∃ l : List γ, get_ensemble_colors n cmap = Except.ok l ∧ l.length = n ∧
        (i < n → ∃ c, l.get? i = some c ∧
            get_member_color i n cmap = Except.ok c)) ∧
    (n ≤ i → get_member_color i n cmap
        = Except.error "IndexError: list index out of range") := by
  have hok : ∀ m : Nat, ∃ l : List γ,
      get_ensemble_colors m cmap = Except.ok l ∧ l.length = m := by
    intro m
    obtain ⟨l, hl, hlen⟩ :=
      pyList_ok (fun j => (pydiv j m).map cmap) (List.range m) (by
        intro a ha
        have ham : a < m := List.mem_range.mp ha
        have hm : m ≠ 0 := by omega
        exact ⟨cmap ((a : ℚ) / (m : ℚ)), by simp [pydiv, hm, Except.map]⟩)
    exact ⟨l, hl, by simpa using hlen⟩
  obtain ⟨l, hl, hlen⟩ := hok n
  refine ⟨?_, ⟨l, hl, hlen, fun hi => ?_⟩, fun hi => ?_⟩
  · obtain ⟨l0, hl0, hlen0⟩ := hok 0
    rw [hl0, List.length_eq_zero.mp hlen0]
  · have hi' : i < l.length := by omega
    exact ⟨l.get ⟨i, hi'⟩, List.get?_eq_get hi',
      by simp [get_member_color, hl, List.getElem?_eq_getElem hi']⟩
  · have hnone : l[i]? = none := by
      rw [List.getElem?_eq_none_iff]; omega
    simp [get_member_color, hl, hnone]

/-- Concrete instantiation of `C10_ensemble_colors` with the identity
colormap over `ℚ` and an ensemble of three members. -/
theorem C10_ensemble_colors_witness :
    get_ensemble_colors 0 (fun q : ℚ => q) = Except.ok ([] : List ℚ) ∧
    (∃ l : List ℚ, get_ensemble_colors 3 (fun q : ℚ => q) = Except.ok l ∧
        l.length = 3 ∧ (1 < 3 → ∃ c, l.get? 1 = some c ∧
            get_member_color 1 3 (fun q : ℚ => q) = Except.ok c)) ∧
    get_member_color 3 3 (fun q : ℚ => q)
      = Except.error "IndexError: list index out of range" := by
  exact ⟨(C10_ensemble_colors 3 1 (fun q : ℚ => q)).1,
         (C10_ensemble_colors 3 1 (fun q : ℚ => q)).2.1,
         (C10_ensemble_colors 3 3 (fun q : ℚ => q)).2.2 (by decide)⟩
